import Mathlib

/-!
Verification development for the pulitzer relay bot.

We give a shallow embedding of the pure logic of the repository's Python
sources and prove the specified properties about it:

* `utils.py` — username sanitization and message-footer helpers;
* `message_handler.py` — message assembly, truncation and the multi-destination
  dispatch aggregation of `process_message`;
* `earthmc_monitor.py` — the snapshot diffing of `_check_town_changes` /
  `_check_nation_changes` and the guard logic of `_monitor_loop`;
* `webhook_manager.py` — webhook cache resolution (`get_webhook`), both as a
  sequential function with a remote-call trace and as an interleaved
  two-task step machine for the concurrency analysis.

Python strings are modelled as `List Char` (one element per Unicode code
point, matching Python's `len` and indexing); Python dicts that the code
iterates over are modelled as insertion-ordered association lists, which is
exactly the observable behaviour of CPython dicts (unique keys, insertion
order preserved).
-/

namespace Pulitzer

/-! ### Definitions -/

/-- Python strings, one `Char` per code point. -/
abbrev Str := List Char

/-- Code-point lexicographic strict order, as Python compares strings. -/
def strLt : Str → Str → Bool
  | _, [] => false
  | [], _ :: _ => true
  | a :: as, b :: bs =>
    if a < b then true
    else if b < a then false
    else strLt as bs

/-- Non-strict version, the `le` argument for `List.mergeSort`. -/
def strLe (a b : Str) : Bool := !(strLt b a)

/-- Python `str.strip()` whitespace set (the ASCII part, which is all the
code under verification can produce). -/
def pyIsSpace (c : Char) : Bool :=
  c == ' ' || c == '\t' || c == '\n' || c == '\x0d' || c == '\x0b' || c == '\x0c'

/-- Python `s.strip()`. -/
def pyStrip (s : Str) : Str :=
  ((s.dropWhile pyIsSpace).reverse.dropWhile pyIsSpace).reverse

/-- Worker for `replaceAll`: structural recursion on a fuel argument (one
unit per character consumed, so `s.length` units always suffice). -/
def replaceAllGo (old : Str) : Nat → Str → Str
  | _, [] => []
  | 0, s => s
  | fuel + 1, c :: rest =>
    if old ≠ [] ∧ old.isPrefixOf (c :: rest) then
      replaceAllGo old fuel (rest.drop (old.length - 1))
    else
      c :: replaceAllGo old fuel rest

/-- Python `s.replace(old, '')` for non-empty `old`: a single left-to-right
pass removing non-overlapping occurrences. -/
def replaceAll (old s : Str) : Str :=
  replaceAllGo old s.length s

/-- The forbidden substrings of `sanitize_webhook_username`, in source
order: `['@', '#', ':', '```', 'discord']`. -/
def forbiddenSubs : List Str :=
  ["@".toList, "#".toList, ":".toList, "```".toList, "discord".toList]

/-- The fallback placeholder username. -/
def unknownUser : Str := "Unknown User".toList

/-- Embeds `utils.sanitize_webhook_username`: sequential removal of the forbidden
substrings, strip, fallback to `"Unknown User"` when empty, cap at 80. -/
def sanitize_webhook_username (username : Str) : Str :=
  if username = [] then unknownUser
  else
    let sanitized := forbiddenSubs.foldl (fun s f => replaceAll f s) username
    let stripped := pyStrip sanitized
    if stripped = [] then unknownUser
    else if stripped.length > 80 then stripped.take 80
    else stripped

/-- Python truthiness of an optional string: present and non-empty. -/
def truthyStr : Option Str → Bool
  | none => false
  | some s => !s.isEmpty

/-- Embeds `utils.build_message_link`: empty unless all three components are
truthy. -/
def build_message_link (guildId channelId messageId : Option Str) : Str :=
  if truthyStr guildId && truthyStr channelId && truthyStr messageId then
    "https://discord.com/channels/".toList ++ guildId.getD [] ++
      "/".toList ++ channelId.getD [] ++ "/".toList ++ messageId.getD []
  else []

/-- Embeds `utils.format_message_footer`: `"\n".join(["", origin] + maybe jump)`. -/
def format_message_footer (guildName channelName : Str) (messageLink : Str) :
    Str :=
  let origin := "-# 📍 **".toList ++ guildName ++ "** | #".toList ++ channelName
  let parts :=
    if messageLink ≠ [] then
      [([] : Str), origin,
        "-# [Jump to Message](".toList ++ messageLink ++ ")".toList]
    else [([] : Str), origin]
  List.intercalate "\n".toList parts

/-- One entry of `message_data['attachments']`; `Option` fields model keys
that may be absent from the JSON object (and `none` also stands for JSON
`null`, which Python's `.get` treats the same as a present `None`). -/
structure Attachment where
  filename : Option Str
  url : Option Str
  proxyUrl : Option Str
deriving DecidableEq, Repr

/-- The inbound message payload consumed by `MessageHandler`; fields the
code reads with `.get` are `Option`s. -/
structure MessageData where
  channelId : Option Str
  messageId : Option Str
  authorUsername : Option Str
  authorId : Option Str
  authorAvatar : Option Str
  content : Option Str
  attachments : Option (List Attachment)
deriving DecidableEq, Repr

/-- A `source_channels` entry from the configuration (`guild_id`,
`guild_name`, `channel_name`, each possibly absent). -/
structure SourceInfo where
  guildId : Option Str
  guildName : Option Str
  channelName : Option Str
deriving DecidableEq, Repr

/-- The fallback `source_info` built when no configuration entry exists
for the source channel. -/
def defaultSourceInfo : SourceInfo :=
  { guildId := some "unknown".toList
    guildName := some "Unknown Server".toList
    channelName := some "unknown".toList }

/-- Embeds `MessageHandler.extract_author_info`: username with `'Unknown User'`
default, avatar URL only when both avatar hash and user id are truthy.
Note the username is returned exactly as it appears in the payload — the
function performs no sanitization. -/
def extract_author_info (md : MessageData) : Str × Option Str :=
  let username := md.authorUsername.getD unknownUser
  let avatarUrl :=
    if truthyStr md.authorAvatar then
      if truthyStr md.authorId then
        some ("https://cdn.discordapp.com/avatars/".toList ++
          md.authorId.getD [] ++ "/".toList ++ md.authorAvatar.getD [] ++
          ".png".toList)
      else none
    else none
  (username, avatarUrl)

/-- Python `x or y` on two optional strings, as in
`att.get('url') or att.get('proxy_url')`. -/
def pyOrStr (x y : Option Str) : Option Str :=
  if truthyStr x then x else y

/-- The markdown link `[{filename}]({url})` built for one attachment, when
its URL is truthy. -/
def attachmentLink (att : Attachment) : Option Str :=
  match pyOrStr att.url att.proxyUrl with
  | some u =>
    if u ≠ [] then
      some ("[".toList ++ att.filename.getD "file".toList ++ "](".toList ++
        u ++ ")".toList)
    else none
  | none => none

/-- The body assembled by `MessageHandler.build_message_content` before the
final length check: content, footer, attachment-link line. -/
def assembleContent (md : MessageData) (si : SourceInfo) : Str :=
  let content := md.content.getD []
  let messageLink := build_message_link si.guildId md.channelId md.messageId
  let footer := format_message_footer (si.guildName.getD "Unknown Server".toList)
    (si.channelName.getD "unknown".toList) messageLink
  let full :=
    if footer ≠ [] then
      if content ≠ [] then content ++ "\n".toList ++ footer else footer
    else content
  let atts := md.attachments.getD []
  if atts ≠ [] then
    let links := (atts.take 10).filterMap attachmentLink
    if links ≠ [] then
      full ++ "\n-# ".toList ++ List.intercalate ", ".toList links
    else full
  else full

/-- Embeds `MessageHandler.build_message_content`: the assembled body, truncated to
2000 characters (1997 kept + `"..."`) when it exceeds the Discord cap. -/
def build_message_content (md : MessageData) (si : SourceInfo) : Str :=
  let full := assembleContent md si
  if full.length > 2000 then full.take 1997 ++ "...".toList
  else full

/-- Outcome of one destination attempt inside `process_message`'s fan-out
loop: channel lookup failed, channel of the wrong type,
`send_webhook_message` returned `True`/`False`, or raised. -/
inductive DestOutcome
  | chanNotFound
  | chanWrongType
  | sendOk
  | sendFailed
  | sendRaised
deriving DecidableEq, Repr

/-- Whether an outcome increments `success_count` (only a `True` return
from `send_webhook_message` does). -/
def DestOutcome.isOk : DestOutcome → Bool
  | .sendOk => true
  | _ => false

/-- The configuration lookups `process_message` performs
(`get_relay_group_for_channel`, `get_source_channel_info`,
`get_destination_channel_ids`). -/
structure RelayConfig where
  groupFor : Str → Option String
  sourceFor : Str → Option SourceInfo
  destsFor : String → List Nat

/-- The counting loop of `process_message`: every destination increments
exactly one of `(success_count, fail_count)`. -/
def dispatchCounts (outcome : Nat → DestOutcome) (dests : List Nat) :
    Nat × Nat :=
  dests.foldl
    (fun sf d => if (outcome d).isOk then (sf.1 + 1, sf.2) else (sf.1, sf.2 + 1))
    (0, 0)

/-- The success summary string `f"Sent to {k}/{n} destinations"`. -/
def sentSummary (k n : Nat) : String := s!"Sent to {k}/{n} destinations"

/-- The failure summary string
`f"Failed to send to all {f} destinations"`. -/
def failSummary (f : Nat) : String := s!"Failed to send to all {f} destinations"

/-- Embeds `MessageHandler.process_message`, with the per-destination sends
abstracted by `outcome` (the channel lookup, type check and webhook send for
destination id `d` jointly yield `outcome d`).  Returns Python's
`(success, message)` pair. -/
def process_message (cfg : RelayConfig) (outcome : Nat → DestOutcome)
    (md : MessageData) : Bool × String :=
  let channelId := md.channelId.getD []
  if channelId = [] then (false, "Missing channel_id")
  else
    match cfg.groupFor channelId with
    | none => (false, "Channel not in any relay group")
    | some groupName =>
      let sourceInfo := (cfg.sourceFor channelId).getD defaultSourceInfo
      let dests := cfg.destsFor groupName
      if dests = [] then (false, "No destinations configured")
      else
        let _username := extract_author_info md
        let _content := build_message_content md sourceInfo
        let counts := dispatchCounts outcome dests
        if counts.1 > 0 then (true, sentSummary counts.1 dests.length)
        else (false, failSummary counts.2)

/-- A snapshot of one entity population: the CPython dict
`{uuid: name}`, modelled as an insertion-ordered association list with
unique keys. -/
abbrev Snap := List (Str × Str)

/-- Dict lookup `d[k]` / `k in d`, first (unique) match. -/
def alookup : Snap → Str → Option Str
  | [], _ => none
  | p :: rest, k => if p.1 = k then some p.2 else alookup rest k

/-- Dict write `d[k] = v`: update in place when the key exists (keeping its
position), append otherwise — CPython dict semantics. -/
def dictInsert (s : Snap) (k v : Str) : Snap :=
  if (s.map Prod.fst).contains k then
    s.map (fun p => if p.1 = k then (k, v) else p)
  else s ++ [(k, v)]

/-- One entity record from the API response (`{'uuid': ..., 'name': ...}`). -/
structure Entity where
  uuid : Str
  name : Str
deriving DecidableEq, Repr

/-- The dict comprehension `{e['uuid']: e['name'] for e in entities}`. -/
def buildSnap (entities : List Entity) : Snap :=
  entities.foldl (fun acc e => dictInsert acc e.uuid e.name) []

/-- A change event produced by `_check_town_changes` /
`_check_nation_changes` (the notification message rendered from it is a
pure template substitution and is not modelled). -/
inductive ChangeEvent
  | created (uuid name leader : Str)
  | removed (uuid name : Str)
  | renamed (uuid oldName newName : Str)
deriving DecidableEq, Repr

/-- Insert into a `strLe`-sorted list, keeping it sorted. -/
def insertSorted (x : Str) : List Str → List Str
  | [] => [x]
  | y :: ys => if strLe x y then x :: y :: ys else y :: insertSorted x ys

/-- Insertion sort by `strLe`.  On the duplicate-free key sets diffing
produces, the sorted result is unique, so this agrees with whatever sort
Python's `sorted` uses. -/
def sortStrs : List Str → List Str
  | [] => []
  | x :: xs => insertSorted x (sortStrs xs)

/-- Python `sorted(set(keys))`: deduplicate, then sort in Python's string order. -/
def sortedKeys (keys : List Str) : List Str :=
  sortStrs keys.dedup

/-- The keys of `current` absent from `previous`
(`set(current) - set(previous)`, sorted). -/
def newKeys (prev cur : Snap) : List Str :=
  sortedKeys ((cur.map Prod.fst).filter
    (fun k => !((prev.map Prod.fst).contains k)))

/-- The keys of `previous` absent from `current`, sorted. -/
def removedKeys (prev cur : Snap) : List Str :=
  sortedKeys ((prev.map Prod.fst).filter
    (fun k => !((cur.map Prod.fst).contains k)))

/-- The created event for one new key: name from `current`, leader from
the per-entity detail fetch (`details u = none` when that fetch fails or
the name is missing, which the source replaces by `'Unknown'`). -/
def createdEvent (details : Str → Option Str) (cur : Snap) (u : Str) :
    ChangeEvent :=
  ChangeEvent.created u ((alookup cur u).getD [])
    ((details u).getD "Unknown".toList)

/-- The removed event for one key (`self.previous_towns[uuid]`). -/
def removedEvent (prev : Snap) (u : Str) : ChangeEvent :=
  ChangeEvent.removed u ((alookup prev u).getD [])

/-- The body of the rename loop for one key of `current`: an event when the
key is in both snapshots with differing names. -/
def renamedEventOf (prev cur : Snap) (u : Str) : Option ChangeEvent :=
  match alookup prev u, alookup cur u with
  | some oldName, some newName =>
    if oldName ≠ newName then some (ChangeEvent.renamed u oldName newName)
    else none
  | _, _ => none

/-- Embeds `_check_town_changes` / `_check_nation_changes` (both bodies are
identical up to which population, templates and detail fetch they use):
created events over the sorted new keys, then removed events over the
sorted removed keys, then renamed events in the iteration order of
`current`'s keys. -/
def checkChanges (details : Str → Option Str) (prev cur : Snap) :
    List ChangeEvent :=
  (newKeys prev cur).map (createdEvent details cur)
    ++ (removedKeys prev cur).map (removedEvent prev)
    ++ (cur.map Prod.fst).filterMap (renamedEventOf prev cur)

/-- The JSON value of one API response body, restricted to the shapes the
monitor handles: a bare list of entities, or an object whose relevant
fields map to entity lists. -/
inductive ApiData
  | jlist (entries : List Entity)
  | jdict (fields : List (String × List Entity))
deriving DecidableEq, Repr

/-- Python truthiness of the response value (`if not towns_data ...`):
an empty list and an empty dict are falsy. -/
def ApiData.truthy : ApiData → Bool
  | .jlist es => !es.isEmpty
  | .jdict fs => !fs.isEmpty

/-- Python `towns_data.get('towns', towns_data.get('data', []))` (resp. the
`nations` key), applied after the `isinstance(..., dict)` test. -/
def extractEntities (key : String) : ApiData → List Entity
  | .jlist es => es
  | .jdict fs =>
    match fs.lookup key with
    | some v => v
    | none => (fs.lookup "data").getD []

/-- One HTTP interaction of `fetch_api_data`: status 200 with a parse
result (`none` = `resp.json()` raised on a malformed payload), a non-200
status, or a network error / timeout exception. -/
inductive HttpResp
  | ok (body : Option ApiData)
  | badStatus (code : Nat)
  | netError
deriving DecidableEq, Repr

/-- Whether the interaction makes `fetch_api_data` return `(None, None)`. -/
def HttpResp.failed : HttpResp → Bool
  | .ok (some _) => false
  | _ => true

/-- Embeds `EarthMCMonitor.fetch_api_data`: both fetches must return status 200
and parse, else the whole fetch yields `(None, None)` (modelled `none`). -/
def fetch_api_data (townsResp nationsResp : HttpResp) :
    Option (ApiData × ApiData) :=
  match townsResp with
  | .ok (some td) =>
    match nationsResp with
    | .ok (some nd) => some (td, nd)
    | _ => none
  | _ => none

/-- The in-memory state the loop threads between cycles
(`self.previous_towns`, `self.previous_nations`). -/
structure MonitorState where
  towns : Snap
  nations : Snap
deriving DecidableEq, Repr

/-- Observable result of one iteration of `_monitor_loop`: the state kept
for the next cycle, the change events emitted, and how long the loop then
sleeps. -/
structure CycleResult where
  state : MonitorState
  events : List ChangeEvent
  wait : Nat
deriving DecidableEq, Repr

/-- The diff guard of `_monitor_loop` (`if self.previous_towns: ...`):
Python dict truthiness, so diffing runs only when the previous snapshot is
non-empty. -/
def gateDiff (details : Str → Option Str) (prev cur : Snap) :
    List ChangeEvent :=
  if !prev.isEmpty then checkChanges details prev cur else []

/-- One iteration of `EarthMCMonitor._monitor_loop` after the fetch:
failed or falsy responses abandon the cycle (state kept, no events, full
sleep); otherwise the entity lists are extracted, diffed through the
truthiness guards, and the current snapshots adopted as the new state.
Every branch sleeps the full `poll_interval`. -/
def monitorCycle (townDetails nationDetails : Str → Option Str)
    (st : MonitorState) (fetched : Option (ApiData × ApiData))
    (pollInterval : Nat) : CycleResult :=
  match fetched with
  | none => ⟨st, [], pollInterval⟩
  | some (townsData, nationsData) =>
    if !townsData.truthy || !nationsData.truthy then ⟨st, [], pollInterval⟩
    else
      let currentTowns := buildSnap (extractEntities "towns" townsData)
      let currentNations := buildSnap (extractEntities "nations" nationsData)
      let townEvents := gateDiff townDetails st.towns currentTowns
      let nationEvents := gateDiff nationDetails st.nations currentNations
      ⟨⟨currentTowns, currentNations⟩, townEvents ++ nationEvents, pollInterval⟩

/-- A Discord webhook as far as `WebhookManager` observes it: numeric id,
display name, token (empty string = no token). -/
structure Webhook where
  wid : Nat
  name : String
  token : String
deriving DecidableEq, Repr

/-- Result of `await webhook.fetch()`. -/
inductive FetchOutcome
  | ok
  | notFound
  | forbidden
  | otherError
deriving DecidableEq, Repr

/-- The remote side as `get_webhook` interrogates it: per-webhook fetch
outcomes, the channel listing (`none` = `channel.webhooks()` raised, e.g.
`Forbidden`), and webhook creation (`none` = `create_webhook` raised). -/
structure RemoteEnv where
  fetchOutcome : Webhook → FetchOutcome
  listing : Nat → Option (List Webhook)
  createHook : Nat → Option Webhook

/-- One remote API call issued by `get_webhook`, for counting. -/
inductive RCall
  | fetchW (w : Webhook)
  | listW (ch : Nat)
  | createW (ch : Nat)
  | deleteW (w : Webhook)
deriving DecidableEq, Repr

/-- The webhook cache `self.webhooks : {channel_id: webhook}`. -/
abbrev WCache := List (Nat × Webhook)

/-- Cache lookup. -/
def cacheGet : WCache → Nat → Option Webhook
  | [], _ => none
  | p :: rest, ch => if p.1 = ch then some p.2 else cacheGet rest ch

/-- Python `del self.webhooks[channel_id]`. -/
def cacheDel (c : WCache) (ch : Nat) : WCache :=
  c.filter (fun p => p.1 ≠ ch)

/-- Python `self.webhooks[channel_id] = webhook`. -/
def cachePut (c : WCache) (ch : Nat) (w : Webhook) : WCache :=
  cacheDel c ch ++ [(ch, w)]

/-- The listing scan of `get_webhook`: for each webhook whose name matches
the configured identity, fetch it; keep the first one with a token
(breaking the loop); delete tokenless or invalid ones and continue.
Returns the webhook found (if any) and the remote calls issued. -/
def scanHooks (env : RemoteEnv) (whName : String) :
    List Webhook → Option Webhook × List RCall
  | [] => (none, [])
  | w :: rest =>
    if w.name = whName then
      match env.fetchOutcome w with
      | .ok =>
        if w.token ≠ "" then (some w, [RCall.fetchW w])
        else
          let r := scanHooks env whName rest
          (r.1, RCall.fetchW w :: RCall.deleteW w :: r.2)
      | _ =>
        let r := scanHooks env whName rest
        (r.1, RCall.fetchW w :: RCall.deleteW w :: r.2)
    else scanHooks env whName rest

/-- Embeds `WebhookManager.get_webhook`, sequential semantics: returns the
resolved webhook (or `none`), the updated cache, and the trace of remote
calls issued, in order. -/
def get_webhook (env : RemoteEnv) (whName : String) (cache : WCache)
    (ch : Nat) : Option Webhook × WCache × List RCall :=
  let probe : Option Webhook × WCache × List RCall :=
    match cacheGet cache ch with
    | some w =>
      match env.fetchOutcome w with
      | .ok =>
        if w.token = "" then (none, cacheDel cache ch, [RCall.fetchW w])
        else (some w, cache, [RCall.fetchW w])
      | _ => (none, cacheDel cache ch, [RCall.fetchW w])
    | none => (none, cache, [])
  match probe with
  | (some w, c, t) => (some w, c, t)
  | (none, c, t) =>
    match env.listing ch with
    | none => (none, c, t ++ [RCall.listW ch])
    | some hooks =>
      let s := scanHooks env whName hooks
      match s.1 with
      | some w => (some w, cachePut c ch w, t ++ RCall.listW ch :: s.2)
      | none =>
        match env.createHook ch with
        | none => (none, c, t ++ RCall.listW ch :: s.2)
        | some w =>
          (some w, cachePut c ch w, t ++ RCall.listW ch :: s.2 ++ [RCall.createW ch])

/-- Is a call a webhook-creation call? -/
def RCall.isCreate : RCall → Bool
  | .createW _ => true
  | _ => false

/-- Is a call a channel listing call? -/
def RCall.isList : RCall → Bool
  | .listW _ => true
  | _ => false

/-- The concatenated call trace of `n` successive `get_webhook` resolves
for the same channel, threading the cache. -/
def resolveTrace (env : RemoteEnv) (whName : String) :
    WCache → Nat → Nat → List RCall
  | _, _, 0 => []
  | cache, ch, n + 1 =>
    let r := get_webhook env whName cache ch
    r.2.2 ++ resolveTrace env whName r.2.1 ch n

/-- Program counter of one in-flight `get_webhook` call. -/
inductive TaskPC
  | start
  | awaitFetch (w : Webhook)
  | awaitList
  | awaitCreate
  | finished (res : Option Webhook)
deriving DecidableEq, Repr

/-- Shared state: the manager's cache, the remote channel's webhook list,
the remote's id counter, and the two tasks. -/
structure SysState where
  cache : WCache
  remoteHooks : List Webhook
  nextId : Nat
  pc1 : TaskPC
  pc2 : TaskPC
deriving DecidableEq, Repr

/-- First webhook in the listing matching the configured name and holding a
token (the scan loop under the benign remote, where every fetch succeeds). -/
def findUsable (whName : String) : List Webhook → Option Webhook
  | [] => none
  | w :: rest =>
    if w.name = whName && w.token ≠ "" then some w
    else findUsable whName rest

/-- Advance one task by one atomic segment of `get_webhook` (up to its next
await), returning the new shared components and the task's new pc. -/
def taskStep (ch : Nat) (whName : String) (cache : WCache)
    (remoteHooks : List Webhook) (nextId : Nat) (pc : TaskPC) :
    WCache × List Webhook × Nat × TaskPC :=
  match pc with
  | .start =>
    match cacheGet cache ch with
    | some w => (cache, remoteHooks, nextId, .awaitFetch w)
    | none => (cache, remoteHooks, nextId, .awaitList)
  | .awaitFetch w =>
    -- benign remote: the fetch succeeded; the token check decides
    if w.token ≠ "" then (cache, remoteHooks, nextId, .finished (some w))
    else (cacheDel cache ch, remoteHooks, nextId, .awaitList)
  | .awaitList =>
    match findUsable whName remoteHooks with
    | some w => (cachePut cache ch w, remoteHooks, nextId, .finished (some w))
    | none => (cache, remoteHooks, nextId, .awaitCreate)
  | .awaitCreate =>
    let w : Webhook := ⟨nextId, whName, "tok"⟩
    (cachePut cache ch w, remoteHooks ++ [w], nextId + 1, .finished (some w))
  | .finished r => (cache, remoteHooks, nextId, .finished r)

/-- Run one scheduler choice: `true` advances task 1, `false` task 2. -/
def schedStep (ch : Nat) (whName : String) (s : SysState) (b : Bool) :
    SysState :=
  if b then
    let r := taskStep ch whName s.cache s.remoteHooks s.nextId s.pc1
    ⟨r.1, r.2.1, r.2.2.1, r.2.2.2, s.pc2⟩
  else
    let r := taskStep ch whName s.cache s.remoteHooks s.nextId s.pc2
    ⟨r.1, r.2.1, r.2.2.1, s.pc1, r.2.2.2⟩

/-- Run a whole schedule. -/
def runSched (ch : Nat) (whName : String) : List Bool → SysState → SysState
  | [], s => s
  | b :: rest, s => runSched ch whName rest (schedStep ch whName s b)

/-- Both tasks about to resolve a cold cache against an empty remote. -/
def initSys : SysState := ⟨[], [], 0, .start, .start⟩

/-- Remote webhooks carrying the relay identity for the channel — the
duplicates the specification says a race must never create. -/
def relayHookCount (whName : String) (s : SysState) : Nat :=
  (s.remoteHooks.filter (fun w => w.name = whName)).length

/-- The uuid of a created event. -/
def createdKeyOf : ChangeEvent → Option Str
  | .created u _ _ => some u
  | _ => none

/-- The uuid of a removed event. -/
def removedKeyOf : ChangeEvent → Option Str
  | .removed u _ => some u
  | _ => none

/-- The uuid of a renamed event. -/
def renamedKeyOf : ChangeEvent → Option Str
  | .renamed u _ _ => some u
  | _ => none

/-- The created-event keys of an event sequence, in emission order. -/
def createdKeysOf (evs : List ChangeEvent) : List Str :=
  evs.filterMap createdKeyOf

/-- The removed-event keys of an event sequence, in emission order. -/
def removedKeysOf (evs : List ChangeEvent) : List Str :=
  evs.filterMap removedKeyOf

/-- The renamed-event keys of an event sequence, in emission order. -/
def renamedKeysOf (evs : List ChangeEvent) : List Str :=
  evs.filterMap renamedKeyOf

/-- Whether the key `u` is reported as renamed between the two
snapshots: present in both with differing names. -/
def renamedHere (prev cur : Snap) (u : Str) : Bool :=
  match alookup prev u, alookup cur u with
  | some oldName, some newName => decide (oldName ≠ newName)
  | _, _ => false

/-- A 2100-character inbound content. -/
def mdBig : MessageData :=
  ⟨some "c".toList, some "m".toList, none, none, none,
    some (List.replicate 2100 'a'), none⟩

/-- A source channel with no configured info. -/
def siBig : SourceInfo := ⟨none, none, none⟩

/-- A benign remote for the C4 witness: the cached webhook probes fine. -/
def envW : RemoteEnv :=
  ⟨fun _ => FetchOutcome.ok, fun _ => some [], fun _ => some ⟨99, "Relay Bot", "t"⟩⟩

/-- The cached webhook of the C4 witness. -/
def hookW : Webhook := ⟨5, "Relay Bot", "tok"⟩

/-- The racing schedule: the two tasks alternate, so both miss the cache,
both see an empty listing, and both create a webhook. -/
def raceSched : List Bool := [true, false, true, false, true, false]

/-- The sequential schedule: task 1 runs to completion, then task 2. -/
def seqSched : List Bool := [true, true, true, false, false]

/-! ### Theorems -/

theorem strLt_irrefl (a : Str) : strLt a a = false := by
  induction a with
  | nil => rfl
  | cons c cs ih => simp [strLt, ih]

theorem strLt_asymm : ∀ a b : Str, strLt a b = true → strLt b a = true → False
  | _, [], h, _ => by simp [strLt] at h
  | [], _ :: _, _, h' => by simp [strLt] at h'
  | a :: as, b :: bs, h, h' => by
    simp only [strLt] at h h'
    rcases lt_trichotomy a b with hab | hab | hab
    · rw [if_neg (lt_asymm hab), if_pos hab] at h'
      exact Bool.false_ne_true h'
    · subst hab
      rw [if_neg (lt_irrefl a), if_neg (lt_irrefl a)] at h h'
      exact strLt_asymm as bs h h'
    · rw [if_neg (lt_asymm hab), if_pos hab] at h
      exact Bool.false_ne_true h

theorem strLt_trans : ∀ a b c : Str, strLt a b = true → strLt b c = true →
    strLt a c = true
  | _, _, [], _, h' => by simp [strLt] at h'
  | _, [], _ :: _, h, _ => by simp [strLt] at h
  | [], _ :: _, _ :: _, _, _ => by simp [strLt]
  | a :: as, b :: bs, c :: cs, h, h' => by
    simp only [strLt] at h h' ⊢
    rcases lt_trichotomy a b with hab | hab | hab
    · rcases lt_trichotomy b c with hbc | hbc | hbc
      · rw [if_pos (lt_trans hab hbc)]
      · subst hbc
        rw [if_pos hab]
      · rw [if_neg (lt_asymm hbc), if_pos hbc] at h'
        exact absurd h' Bool.false_ne_true
    · subst hab
      rw [if_neg (lt_irrefl a), if_neg (lt_irrefl a)] at h
      rcases lt_trichotomy a c with hac | hac | hac
      · rw [if_pos hac]
      · subst hac
        rw [if_neg (lt_irrefl a), if_neg (lt_irrefl a)] at h' ⊢
        exact strLt_trans as bs cs h h'
      · rw [if_neg (lt_asymm hac), if_pos hac] at h'
        exact absurd h' Bool.false_ne_true
    · rw [if_neg (lt_asymm hab), if_pos hab] at h
      exact absurd h Bool.false_ne_true

theorem strLt_connex : ∀ a b : Str, strLt a b = false → strLt b a = false → a = b
  | [], [], _, _ => rfl
  | [], _ :: _, h, _ => by simp [strLt] at h
  | _ :: _, [], _, h' => by simp [strLt] at h'
  | a :: as, b :: bs, h, h' => by
    simp only [strLt] at h h'
    rcases lt_trichotomy a b with hab | hab | hab
    · rw [if_pos hab] at h
      exact Bool.noConfusion h
    · subst hab
      rw [if_neg (lt_irrefl a), if_neg (lt_irrefl a)] at h h'
      rw [strLt_connex as bs h h']
    · rw [if_pos hab] at h'
      exact Bool.noConfusion h'

theorem strLe_trans : ∀ a b c : Str, strLe a b = true → strLe b c = true →
    strLe a c = true := by
  intro a b c hab hbc
  simp only [strLe, Bool.not_eq_true', Bool.not_eq_true] at hab hbc ⊢
  cases hca : strLt c a with
  | false => rfl
  | true =>
    cases hcb : strLt a b with
    | false =>
      have : a = b := strLt_connex a b hcb hab
      subst this
      rw [hbc] at hca
      exact absurd hca Bool.false_ne_true
    | true =>
      have := strLt_trans c a b hca hcb
      rw [hbc] at this
      exact absurd this Bool.false_ne_true

theorem strLe_total : ∀ a b : Str, (strLe a b || strLe b a) = true := by
  intro a b
  simp only [strLe, Bool.or_eq_true, Bool.not_eq_true', Bool.not_eq_true]
  cases h : strLt b a with
  | false => exact Or.inl rfl
  | true =>
    cases h' : strLt a b with
    | false => exact Or.inr rfl
    | true => exact absurd (strLt_asymm a b h' h) not_false

theorem filter_not_contains_self (keys : List Str) :
    keys.filter (fun k => !(keys.contains k)) = [] := by
  rw [List.filter_eq_nil_iff]
  intro a ha
  simp [ha]

theorem renamedEventOf_self_none (A : Snap) (u : Str) :
    renamedEventOf A A u = none := by
  unfold renamedEventOf
  cases h : alookup A u <;> simp

/-- **C7** (confirmed).  For every snapshot `A`, diffing `A` against itself
yields zero change events: no key is new, none is removed, and no name
differs from itself. -/
theorem checkChanges_self_nil (details : Str → Option Str) (A : Snap) :
    checkChanges details A A = [] := by
  unfold checkChanges
  rw [show newKeys A A = [] from by
      unfold newKeys
      rw [filter_not_contains_self]
      rfl,
    show removedKeys A A = [] from by
      unfold removedKeys
      rw [filter_not_contains_self]
      rfl]
  simp only [List.map_nil, List.nil_append]
  exact List.filterMap_eq_nil_iff.mpr (fun u _ => renamedEventOf_self_none A u)

/-- **C5** (confirmed).  Whenever either HTTP interaction of
`fetch_api_data` fails (network error, non-200 status, or malformed
payload), the fetch yields `(None, None)` and the cycle is abandoned: no
events, unchanged snapshots, and the loop still sleeps the full poll
interval. -/
theorem fetch_failure_abandons_cycle (dT dN : Str → Option Str)
    (st : MonitorState) (tr nr : HttpResp) (i : Nat)
    (h : tr.failed = true ∨ nr.failed = true) :
    fetch_api_data tr nr = none
    ∧ monitorCycle dT dN st (fetch_api_data tr nr) i = ⟨st, [], i⟩ := by
  have hnone : fetch_api_data tr nr = none := by
    match tr, h with
    | .badStatus c, _ => rfl
    | .netError, _ => rfl
    | .ok none, _ => rfl
    | .ok (some td), h =>
      rcases h with h | h
      · simp [HttpResp.failed] at h
      · match nr, h with
        | .badStatus c, _ => rfl
        | .netError, _ => rfl
        | .ok none, _ => rfl
        | .ok (some nd), h => simp [HttpResp.failed] at h
  refine ⟨hnone, ?_⟩
  rw [hnone]
  rfl

/-- Witness for C5: a concrete non-200 towns response abandons a concrete
cycle untouched. -/
theorem fetch_failure_abandons_cycle_witness :
    (HttpResp.badStatus 500).failed = true
    ∧ monitorCycle (fun _ => none) (fun _ => none)
        ⟨[("u1".toList, "A".toList)], []⟩
        (fetch_api_data (HttpResp.badStatus 500) (HttpResp.ok (some (.jlist [⟨"n1".toList, "N".toList⟩])))) 60
      = ⟨⟨[("u1".toList, "A".toList)], []⟩, [], 60⟩ :=
  ⟨rfl,
    (fetch_failure_abandons_cycle (fun _ => none) (fun _ => none)
      ⟨[("u1".toList, "A".toList)], []⟩ (HttpResp.badStatus 500)
      (HttpResp.ok (some (.jlist [⟨"n1".toList, "N".toList⟩]))) 60
      (Or.inl rfl)).2⟩

/-- **C10** (confirmed).  A bare-list response with zero entries is falsy
in Python, so `if not towns_data or not nations_data` treats it exactly
like a fetch failure: the cycle is skipped with no events, the previous
snapshots stay, and the empty snapshot is never adopted. -/
theorem empty_list_response_skips_cycle (dT dN : Str → Option Str)
    (st : MonitorState) (td nd : ApiData) (i : Nat)
    (h : td = ApiData.jlist [] ∨ nd = ApiData.jlist []) :
    monitorCycle dT dN st (some (td, nd)) i = ⟨st, [], i⟩ := by
  rcases h with h | h <;> subst h <;> simp [monitorCycle, ApiData.truthy]

/-- Witness for C10: with every tracked town gone from a bare-list
response, no Removed events are produced and the baseline is kept. -/
theorem empty_list_response_skips_cycle_witness :
    (ApiData.jlist [] = ApiData.jlist []
      ∨ ApiData.jlist [⟨"n1".toList, "N".toList⟩] = ApiData.jlist [])
    ∧ monitorCycle (fun _ => none) (fun _ => none)
        ⟨[("u1".toList, "A".toList)], [("n1".toList, "N".toList)]⟩
        (some (ApiData.jlist [], ApiData.jlist [⟨"n1".toList, "N".toList⟩])) 60
      = ⟨⟨[("u1".toList, "A".toList)], [("n1".toList, "N".toList)]⟩, [], 60⟩ :=
  ⟨Or.inl rfl,
    empty_list_response_skips_cycle (fun _ => none) (fun _ => none)
      ⟨[("u1".toList, "A".toList)], [("n1".toList, "N".toList)]⟩
      (ApiData.jlist []) (ApiData.jlist [⟨"n1".toList, "N".toList⟩]) 60
      (Or.inl rfl)⟩

/-- **C1** (counterexample).  The claim says diffing is suppressed only by
a "no prior state" sentinel distinct from an empty-but-initialized
snapshot, so an empty previous snapshot diffed against a non-empty current
one should emit a Created event.  The code's guard is
`if self.previous_towns:` — plain dict truthiness — so with the previous
snapshot the empty dict and a non-empty current response the cycle adopts
the new baseline but emits nothing, even though the diff of those two
snapshots is non-empty. -/
theorem monitor_empty_previous_suppresses_diff :
    monitorCycle (fun _ => none) (fun _ => none) ⟨[], []⟩
      (some (ApiData.jlist [⟨"u1".toList, "Alpha".toList⟩],
        ApiData.jlist [⟨"n1".toList, "N".toList⟩])) 60
    = ⟨⟨[("u1".toList, "Alpha".toList)], [("n1".toList, "N".toList)]⟩, [], 60⟩
    ∧ checkChanges (fun _ => none) [] [("u1".toList, "Alpha".toList)] ≠ [] := by
  constructor <;> decide

/-- **C1** (amended, proved).  The guard suppresses diffing exactly when
the previous snapshot is empty — there is no sentinel distinct from an
empty snapshot — and the cycle adopts the current snapshot as the new
baseline whether or not diffing ran. -/
theorem diff_guard_is_emptiness :
    (∀ (d : Str → Option Str) (cur : Snap), gateDiff d [] cur = [])
    ∧ (∀ (d : Str → Option Str) (prev cur : Snap), prev ≠ [] →
        gateDiff d prev cur = checkChanges d prev cur)
    ∧ (∀ (dT dN : Str → Option Str) (st : MonitorState) (td nd : ApiData)
        (i : Nat), td.truthy = true → nd.truthy = true →
        (monitorCycle dT dN st (some (td, nd)) i).state =
          ⟨buildSnap (extractEntities "towns" td),
            buildSnap (extractEntities "nations" nd)⟩) := by
  refine ⟨fun d cur => rfl, fun d prev cur h => ?_, fun dT dN st td nd i ht hn => ?_⟩
  · match prev, h with
    | [], h => exact absurd rfl h
    | p :: ps, _ => rfl
  · simp [monitorCycle, ht, hn]

/-- Witness for the amended C1, at concrete snapshots and responses. -/
theorem diff_guard_is_emptiness_witness :
    gateDiff (fun _ => none) [] [("u1".toList, "A".toList)] = []
    ∧ ([(("u1".toList : Str), ("A".toList : Str))] ≠ ([] : Snap))
    ∧ gateDiff (fun _ => none) [("u1".toList, "A".toList)] []
      = checkChanges (fun _ => none) [("u1".toList, "A".toList)] []
    ∧ (ApiData.jlist [⟨"u1".toList, "A".toList⟩]).truthy = true
    ∧ (monitorCycle (fun _ => none) (fun _ => none) ⟨[], []⟩
        (some (ApiData.jlist [⟨"u1".toList, "A".toList⟩],
          ApiData.jlist [⟨"n1".toList, "N".toList⟩])) 60).state =
      ⟨buildSnap (extractEntities "towns" (ApiData.jlist [⟨"u1".toList, "A".toList⟩])),
        buildSnap (extractEntities "nations" (ApiData.jlist [⟨"n1".toList, "N".toList⟩]))⟩ :=
  ⟨diff_guard_is_emptiness.1 _ _,
    by decide,
    diff_guard_is_emptiness.2.1 _ _ _ (by decide),
    by decide,
    diff_guard_is_emptiness.2.2 _ _ _ _ _ _ (by decide) (by decide)⟩

theorem mem_insertSorted (x a : Str) :
    ∀ l : List Str, a ∈ insertSorted x l → a = x ∨ a ∈ l := by
  intro l
  induction l with
  | nil =>
    intro h
    rw [insertSorted] at h
    exact Or.inl (List.mem_singleton.mp h)
  | cons y ys ih =>
    intro h
    rw [insertSorted] at h
    by_cases hle : strLe x y = true
    · rw [if_pos hle] at h
      rcases List.mem_cons.mp h with h | h
      · exact Or.inl h
      · exact Or.inr h
    · rw [if_neg hle] at h
      rcases List.mem_cons.mp h with h | h
      · subst h
        exact Or.inr (List.mem_cons_self _ _)
      · rcases ih h with h2 | h2
        · exact Or.inl h2
        · exact Or.inr (List.mem_cons_of_mem y h2)

theorem pairwise_insertSorted (x : Str) :
    ∀ l : List Str, l.Pairwise (fun a b => strLe a b = true) →
      (insertSorted x l).Pairwise (fun a b => strLe a b = true) := by
  intro l
  induction l with
  | nil =>
    intro _
    rw [insertSorted]
    exact List.pairwise_singleton _ x
  | cons y ys ih =>
    intro h
    rcases List.pairwise_cons.mp h with ⟨hy, hys⟩
    rw [insertSorted]
    by_cases hle : strLe x y = true
    · rw [if_pos hle]
      refine List.pairwise_cons.mpr ⟨?_, h⟩
      intro z hz
      rcases List.mem_cons.mp hz with hz | hz
      · rw [hz]
        exact hle
      · exact strLe_trans x y z hle (hy z hz)
    · rw [if_neg hle]
      refine List.pairwise_cons.mpr ⟨?_, ih hys⟩
      intro z hz
      rcases mem_insertSorted x z ys hz with hz2 | hz2
      · subst hz2
        have htot := strLe_total z y
        rw [Bool.or_eq_true] at htot
        rcases htot with h2 | h2
        · exact absurd h2 hle
        · exact h2
      · exact hy z hz2

theorem pairwise_sortStrs (l : List Str) :
    (sortStrs l).Pairwise (fun a b => strLe a b = true) := by
  induction l with
  | nil => exact List.Pairwise.nil
  | cons x xs ih => exact pairwise_insertSorted x (sortStrs xs) ih

theorem filterMap_map_eq_nil {α β : Type} (f : α → ChangeEvent)
    (g : ChangeEvent → Option β) (l : List α) (h : ∀ a, g (f a) = none) :
    (l.map f).filterMap g = [] := by
  rw [List.filterMap_map]
  exact List.filterMap_eq_nil_iff.mpr (fun a _ => h a)

theorem filterMap_map_eq_self (f : Str → ChangeEvent)
    (g : ChangeEvent → Option Str) (l : List Str)
    (h : ∀ a, g (f a) = some a) : (l.map f).filterMap g = l := by
  rw [List.filterMap_map]
  induction l with
  | nil => rfl
  | cons a l ih => simp [List.filterMap_cons, h, ih]

theorem filterMap_eq_filter {α : Type} (p : α → Bool) (f : α → Option α)
    (h : ∀ a, f a = if p a = true then some a else none) :
    ∀ l : List α, l.filterMap f = l.filter p := by
  intro l
  induction l with
  | nil => rfl
  | cons a l ih =>
    rw [List.filterMap_cons, List.filter_cons, h a]
    by_cases hp : p a = true
    · rw [if_pos hp, if_pos hp, ih]
    · rw [if_neg hp, if_neg hp, ih]

theorem renamed_bind_renamedKeyOf (prev cur : Snap) (u : Str) :
    (renamedEventOf prev cur u).bind renamedKeyOf
      = if renamedHere prev cur u = true then some u else none := by
  unfold renamedEventOf renamedHere
  cases hp : alookup prev u with
  | none => cases hc : alookup cur u <;> rfl
  | some o =>
    cases hc : alookup cur u with
    | none => rfl
    | some n =>
      by_cases hne : o = n
      · subst hne
        simp
      · simp [hne, renamedKeyOf]

theorem renamed_bind_createdKeyOf (prev cur : Snap) (u : Str) :
    (renamedEventOf prev cur u).bind createdKeyOf = none := by
  unfold renamedEventOf
  cases hp : alookup prev u with
  | none => cases hc : alookup cur u <;> rfl
  | some o =>
    cases hc : alookup cur u with
    | none => rfl
    | some n =>
      by_cases hne : o = n
      · subst hne
        simp
      · simp [hne, createdKeyOf]

theorem renamed_bind_removedKeyOf (prev cur : Snap) (u : Str) :
    (renamedEventOf prev cur u).bind removedKeyOf = none := by
  unfold renamedEventOf
  cases hp : alookup prev u with
  | none => cases hc : alookup cur u <;> rfl
  | some o =>
    cases hc : alookup cur u with
    | none => rfl
    | some n =>
      by_cases hne : o = n
      · subst hne
        simp
      · simp [hne, removedKeyOf]

/-- The created block of the diff contributes exactly the sorted new keys. -/
theorem createdKeysOf_checkChanges (d : Str → Option Str) (prev cur : Snap) :
    createdKeysOf (checkChanges d prev cur) = newKeys prev cur := by
  unfold createdKeysOf checkChanges
  rw [List.filterMap_append, List.filterMap_append, List.filterMap_filterMap]
  rw [filterMap_map_eq_self (createdEvent d cur) createdKeyOf
    (newKeys prev cur) (fun a => rfl)]
  rw [filterMap_map_eq_nil (removedEvent prev) createdKeyOf
    (removedKeys prev cur) (fun a => rfl)]
  rw [List.filterMap_eq_nil_iff.mpr
    (fun u _ => renamed_bind_createdKeyOf prev cur u)]
  rw [List.append_nil, List.append_nil]

/-- The removed block of the diff contributes exactly the sorted removed
keys. -/
theorem removedKeysOf_checkChanges (d : Str → Option Str) (prev cur : Snap) :
    removedKeysOf (checkChanges d prev cur) = removedKeys prev cur := by
  unfold removedKeysOf checkChanges
  rw [List.filterMap_append, List.filterMap_append, List.filterMap_filterMap]
  rw [filterMap_map_eq_nil (createdEvent d cur) removedKeyOf
    (newKeys prev cur) (fun a => rfl)]
  rw [filterMap_map_eq_self (removedEvent prev) removedKeyOf
    (removedKeys prev cur) (fun a => rfl)]
  rw [List.filterMap_eq_nil_iff.mpr
    (fun u _ => renamed_bind_removedKeyOf prev cur u)]
  rw [List.nil_append, List.append_nil]

/-- The renamed block keys are the current snapshot's keys, in iteration
order, filtered by the rename condition — not sorted. -/
theorem renamedKeysOf_checkChanges (d : Str → Option Str) (prev cur : Snap) :
    renamedKeysOf (checkChanges d prev cur)
      = (cur.map Prod.fst).filter (renamedHere prev cur) := by
  unfold renamedKeysOf checkChanges
  rw [List.filterMap_append, List.filterMap_append, List.filterMap_filterMap]
  rw [filterMap_map_eq_nil (createdEvent d cur) renamedKeyOf
    (newKeys prev cur) (fun a => rfl)]
  rw [filterMap_map_eq_nil (removedEvent prev) renamedKeyOf
    (removedKeys prev cur) (fun a => rfl)]
  rw [filterMap_eq_filter (renamedHere prev cur)
    (fun u => (renamedEventOf prev cur u).bind renamedKeyOf)
    (fun u => renamed_bind_renamedKeyOf prev cur u) (cur.map Prod.fst)]
  rw [List.nil_append, List.nil_append]

/-- **C2** (counterexample).  The claim says keys are sorted
lexicographically within each category.  With previous snapshot
`{"b": "B0", "a": "A0"}` and current snapshot `{"b": "B1", "a": "A1"}`
(insertion order `b` then `a`), both entries are renamed and the renamed
events come out in the current dict's iteration order `b, a`, which is not
sorted. -/
theorem renamed_events_not_sorted :
    ¬ (renamedKeysOf (checkChanges (fun _ => none)
        [("b".toList, "B0".toList), ("a".toList, "A0".toList)]
        [("b".toList, "B1".toList), ("a".toList, "A1".toList)])).Pairwise
      (fun a b => strLe a b = true) := by decide

/-- **C2** (amended, proved).  Within one diff, created and removed events
carry keys sorted lexicographically, while renamed events follow the
current snapshot's key iteration order (filtered by the rename condition);
the diff is a pure function of the two snapshots, so identical inputs give
identical event sequences. -/
theorem checkChanges_category_order (d : Str → Option Str) (prev cur : Snap) :
    (createdKeysOf (checkChanges d prev cur)).Pairwise
      (fun a b => strLe a b = true)
    ∧ (removedKeysOf (checkChanges d prev cur)).Pairwise
      (fun a b => strLe a b = true)
    ∧ renamedKeysOf (checkChanges d prev cur)
      = (cur.map Prod.fst).filter (renamedHere prev cur) := by
  refine ⟨?_, ?_, renamedKeysOf_checkChanges d prev cur⟩
  · rw [createdKeysOf_checkChanges]
    exact pairwise_sortStrs _
  · rw [removedKeysOf_checkChanges]
    exact pairwise_sortStrs _

/-- **C8** (confirmed).  When the assembled body (content + footer +
attachment line) exceeds 2000 characters, `build_message_content` keeps the
first 1997 and appends `"..."`, for exactly 2000; at or under the cap the
body is returned unchanged. -/
theorem build_message_content_cap (md : MessageData) (si : SourceInfo) :
    (2000 < (assembleContent md si).length →
      build_message_content md si
        = (assembleContent md si).take 1997 ++ "...".toList
      ∧ (build_message_content md si).length = 2000)
    ∧ ((assembleContent md si).length ≤ 2000 →
      build_message_content md si = assembleContent md si) := by
  constructor
  · intro h
    have he : build_message_content md si
        = (assembleContent md si).take 1997 ++ "...".toList := by
      unfold build_message_content
      rw [if_pos h]
    refine ⟨he, ?_⟩
    rw [he, List.length_append, List.length_take]
    have h3 : ("...".toList : Str).length = 3 := rfl
    rw [h3]
    omega
  · intro h
    unfold build_message_content
    rw [if_neg (by omega)]

/-- The body is never shorter than the content it starts from (the footer
and attachment lines only extend it). -/
theorem assembleContent_length_lb (md : MessageData) (si : SourceInfo) :
    (md.content.getD []).length ≤ (assembleContent md si).length := by
  have len_full_lb : ∀ content footer : Str,
      content.length ≤ (if footer ≠ [] then
        (if content ≠ [] then content ++ "\n".toList ++ footer else footer)
      else content).length := by
    intro content footer
    split
    · split
      · simp [List.length_append]
      · rename_i h2
        simp only [ne_eq, not_not] at h2
        simp [h2]
    · exact le_refl _
  have hfull := len_full_lb (md.content.getD [])
    (format_message_footer (si.guildName.getD "Unknown Server".toList)
      (si.channelName.getD "unknown".toList)
      (build_message_link si.guildId md.channelId md.messageId))
  unfold assembleContent
  dsimp only
  split
  · split
    · rw [List.length_append, List.length_append]
      omega
    · exact hfull
  · exact hfull

/-- Witness for C8: a 2100-character content plus footer is cut to exactly
2000 characters. -/
theorem build_message_content_cap_witness :
    2000 < (assembleContent mdBig siBig).length
    ∧ (build_message_content mdBig siBig).length = 2000 := by
  have hlb := assembleContent_length_lb mdBig siBig
  have hc : (mdBig.content.getD []).length = 2100 := by
    show (List.replicate 2100 'a').length = 2100
    rw [List.length_replicate]
  have hbig : 2000 < (assembleContent mdBig siBig).length := by omega
  exact ⟨hbig, ((build_message_content_cap mdBig siBig).1 hbig).2⟩

/-- **C6** (code bug).  `utils.sanitize_webhook_username` exists but is
never called: the username `process_message` sends is
`extract_author_info`'s raw `author['username']`.  At the failing input —
an author username of `'@'` followed by one hundred `'a'`s — the dispatched
username is returned verbatim: it exceeds the 80-character cap, still
contains the forbidden `'@'`, and differs from its sanitized form, contrary
to the claim. -/
theorem dispatcher_username_not_sanitized :
    (extract_author_info
      ⟨some "c1".toList, none, some ('@' :: List.replicate 100 'a'),
        none, none, none, none⟩).1 = '@' :: List.replicate 100 'a'
    ∧ 80 < ('@' :: List.replicate 100 'a').length
    ∧ '@' ∈ ('@' :: List.replicate 100 'a')
    ∧ sanitize_webhook_username ('@' :: List.replicate 100 'a')
      ≠ '@' :: List.replicate 100 'a' := by
  refine ⟨rfl, by decide, List.mem_cons_self _ _, by decide⟩

theorem dispatchCounts_eq (outcome : Nat → DestOutcome) :
    ∀ (dests : List Nat) (s f : Nat),
      dests.foldl
        (fun sf d =>
          if (outcome d).isOk then (sf.1 + 1, sf.2) else (sf.1, sf.2 + 1))
        (s, f)
      = (s + dests.countP (fun d => (outcome d).isOk),
          f + (dests.length - dests.countP (fun d => (outcome d).isOk))) := by
  intro dests
  induction dests with
  | nil =>
    intro s f
    simp
  | cons d ds ih =>
    intro s f
    have hle := List.countP_le_length (l := ds) (p := fun d => (outcome d).isOk)
    rw [List.foldl_cons]
    by_cases hok : (outcome d).isOk = true
    · rw [if_pos hok, ih]
      simp [List.countP_cons, List.length_cons, hok, Prod.ext_iff]
      omega
    · rw [if_neg hok, ih]
      simp [List.countP_cons, List.length_cons, hok, Prod.ext_iff]
      omega

/-- **C3** (confirmed).  When the inbound message carries a channel id, the
channel resolves to a relay group and the group has a non-empty destination
list, `process_message` succeeds iff at least one destination send
succeeded; with `k` successes out of `n` destinations the summary is
`"Sent to k/n destinations"`, and with zero successes it is
`"Failed to send to all n destinations"` (every non-success counts one
failure, so the failure count is all `n`).  One destination's failure only
adds to the failure count — every destination is always counted. -/
theorem process_message_any_success (cfg : RelayConfig)
    (outcome : Nat → DestOutcome) (md : MessageData) (g : String)
    (h1 : md.channelId.getD [] ≠ [])
    (h2 : cfg.groupFor (md.channelId.getD []) = some g)
    (h3 : cfg.destsFor g ≠ []) :
    ((process_message cfg outcome md).1 = true
      ↔ 0 < (cfg.destsFor g).countP (fun d => (outcome d).isOk))
    ∧ (∀ k n : Nat, k = (cfg.destsFor g).countP (fun d => (outcome d).isOk) →
        n = (cfg.destsFor g).length → 0 < k →
        (process_message cfg outcome md).2 = sentSummary k n)
    ∧ (∀ n : Nat, (cfg.destsFor g).countP (fun d => (outcome d).isOk) = 0 →
        n = (cfg.destsFor g).length →
        (process_message cfg outcome md).2 = failSummary n) := by
  have hpm : process_message cfg outcome md
      = (if 0 < (cfg.destsFor g).countP (fun d => (outcome d).isOk) then
          (true, sentSummary ((cfg.destsFor g).countP (fun d => (outcome d).isOk))
            (cfg.destsFor g).length)
        else
          (false, failSummary ((cfg.destsFor g).length
            - (cfg.destsFor g).countP (fun d => (outcome d).isOk)))) := by
    unfold process_message
    rw [if_neg h1, h2]
    dsimp only
    rw [if_neg h3]
    unfold dispatchCounts
    rw [dispatchCounts_eq outcome (cfg.destsFor g) 0 0]
    simp only [Nat.zero_add]
  refine ⟨?_, ?_, ?_⟩
  · rw [hpm]
    by_cases hk : 0 < (cfg.destsFor g).countP (fun d => (outcome d).isOk)
    · rw [if_pos hk]
      exact ⟨fun _ => hk, fun _ => rfl⟩
    · rw [if_neg hk]
      exact ⟨fun hc => absurd hc Bool.noConfusion, fun hc => absurd hc hk⟩
  · intro k n hk hn hpos
    rw [hpm, if_pos (hk ▸ hpos), hk, hn]
  · intro n hz hn
    rw [hpm, if_neg (by omega), hz, hn]
    simp

/-- Witness for C3: three destinations, one succeeding. -/
theorem process_message_any_success_witness :
    (("c1".toList : Str) ≠ [])
    ∧ (process_message
        ⟨fun _ => some "g", fun _ => none, fun _ => [10, 11, 12]⟩
        (fun d => if d = 11 then .sendOk else .sendFailed)
        ⟨some "c1".toList, none, none, none, none, none, none⟩).1 = true
    ∧ (process_message
        ⟨fun _ => some "g", fun _ => none, fun _ => [10, 11, 12]⟩
        (fun d => if d = 11 then .sendOk else .sendFailed)
        ⟨some "c1".toList, none, none, none, none, none, none⟩).2
      = "Sent to 1/3 destinations" := by
  refine ⟨by decide, ?_, ?_⟩
  · exact (process_message_any_success
      ⟨fun _ => some "g", fun _ => none, fun _ => [10, 11, 12]⟩
      (fun d => if d = 11 then .sendOk else .sendFailed)
      ⟨some "c1".toList, none, none, none, none, none, none⟩ "g"
      (by decide) rfl (by decide)).1.mpr (by decide)
  · exact (process_message_any_success
      ⟨fun _ => some "g", fun _ => none, fun _ => [10, 11, 12]⟩
      (fun d => if d = 11 then .sendOk else .sendFailed)
      ⟨some "c1".toList, none, none, none, none, none, none⟩ "g"
      (by decide) rfl (by decide)).2.1 1 3 (by decide) (by decide) (by decide)

/-- **C4** (confirmed).  When the cache holds a webhook for the channel,
its liveness probe succeeds and its token is non-empty, `get_webhook`
returns the cached handle after exactly one fetch — no listing call, no
creation call — and leaves the cache unchanged, so any number of repeated
resolves issues zero creation calls and zero listing calls. -/
theorem get_webhook_cached_fast_path (env : RemoteEnv) (whName : String)
    (cache : WCache) (ch : Nat) (w : Webhook)
    (hc : cacheGet cache ch = some w)
    (hf : env.fetchOutcome w = FetchOutcome.ok)
    (ht : w.token ≠ "") :
    get_webhook env whName cache ch = (some w, cache, [RCall.fetchW w])
    ∧ ∀ n : Nat,
        (resolveTrace env whName cache ch n).countP RCall.isCreate = 0
        ∧ (resolveTrace env whName cache ch n).countP RCall.isList = 0 := by
  have hone : get_webhook env whName cache ch
      = (some w, cache, [RCall.fetchW w]) := by
    unfold get_webhook
    rw [hc]
    dsimp only
    rw [hf]
    dsimp only
    rw [if_neg ht]
  refine ⟨hone, ?_⟩
  intro n
  induction n with
  | zero => exact ⟨rfl, rfl⟩
  | succ m ih =>
    rw [resolveTrace, hone]
    rcases ih with ⟨ih1, ih2⟩
    constructor
    · rw [List.countP_append, ih1]
      rfl
    · rw [List.countP_append, ih2]
      rfl

/-- Witness for C4: one cached valid webhook, three repeated resolves,
zero creation calls and zero listing calls. -/
theorem get_webhook_cached_fast_path_witness :
    cacheGet [(1, hookW)] 1 = some hookW
    ∧ envW.fetchOutcome hookW = FetchOutcome.ok
    ∧ hookW.token ≠ ""
    ∧ get_webhook envW "Relay Bot" [(1, hookW)] 1
      = (some hookW, [(1, hookW)], [RCall.fetchW hookW])
    ∧ (resolveTrace envW "Relay Bot" [(1, hookW)] 1 3).countP RCall.isCreate = 0
    ∧ (resolveTrace envW "Relay Bot" [(1, hookW)] 1 3).countP RCall.isList = 0 :=
  ⟨rfl, rfl, by decide,
    (get_webhook_cached_fast_path envW "Relay Bot" [(1, hookW)] 1 hookW
      rfl rfl (by decide)).1,
    ((get_webhook_cached_fast_path envW "Relay Bot" [(1, hookW)] 1 hookW
      rfl rfl (by decide)).2 3).1,
    ((get_webhook_cached_fast_path envW "Relay Bot" [(1, hookW)] 1 hookW
      rfl rfl (by decide)).2 3).2⟩

/-- **C9** (counterexample).  The claim says concurrent resolutions for the
same channel are serialized so that they never create duplicate remote
webhooks.  `WebhookManager` holds no lock of any kind, so the property
"every interleaving of two resolves of the same channel leaves at most one
relay-named webhook" is false: under the alternating schedule both tasks
miss the cache, both list zero webhooks, and both create one. -/
theorem concurrent_resolves_create_duplicates :
    ¬ ∀ sched : List Bool,
        relayHookCount "Relay Bot" (runSched 1 "Relay Bot" sched initSys)
          ≤ 1 := by
  intro h
  exact absurd (h raceSched) (by decide)

/-- **C9** (amended, proved).  Nothing serializes same-channel resolution:
between the cache-miss check and the creation call the coroutine suspends,
so the alternating interleaving of two resolves creates two remote webhooks
for the channel, while the non-interleaved schedule creates exactly one
(the second resolve finds the first's cached handle). -/
theorem webhook_resolution_not_serialized :
    relayHookCount "Relay Bot" (runSched 1 "Relay Bot" raceSched initSys) = 2
    ∧ relayHookCount "Relay Bot" (runSched 1 "Relay Bot" seqSched initSys)
      = 1 := by
  constructor <;> decide

end Pulitzer

